import Mathlib

/-
Verification of the VEO video-generation agent
(samples/python/agents/veo_video_gen_google_adk/agent.py).

The agent's `stream` coroutine is an event generator: it starts a
long-running backend operation, polls it, yields progress events, and on
completion uploads the produced bytes to blob storage and signs a URL.
We embed it as a pure function from an explicit environment (the oracle
of backend results, clock readings and storage outcomes) to the list of
yielded events, together with termination and upload-count bookkeeping.

Python attribute conventions are embedded as follows: an attribute that
may be missing (`hasattr`) is an `Option` field, `none` meaning the
attribute is absent.  Where the source only tests truthiness (`done`,
`name`, `generated_videos`, `video_bytes`, `mime_type`), a falsy value
(None or empty) is collapsed to the empty string / empty list, which is
truth-equivalent there.  The safety-filter fields are the exception:
the source compares `rai_media_filtered_count > 0` and iterates
`rai_media_filtered_reasons` unguarded, where a present-but-None value
raises TypeError while a missing attribute does not, so those two
fields are `Option (Option _)` (missing / present-None / present
value).  Exceptions raised by external calls, and the TypeError and
AttributeError the source itself can raise, are `Except.error` values
carrying the exception text.
-/

namespace VeoSpec

/-- Python truthiness of an optional string attribute (`if x.name:`). -/
def strTruthy : Option String → Bool
  | none => false
  | some s => s ≠ ""

/-- Python slice `s[:200]`, used when logging reprs of foreign objects. -/
def take200 (s : String) : String := ⟨s.data.take 200⟩

/-- Characters after the last occurrence of `sep`; embeds Python
`s.split(sep)[-1]` for a one-character separator. -/
def afterLastSep (sep : Char) (l : List Char) : List Char :=
  l.foldl (fun acc c => if c = sep then [] else acc ++ [c]) []

/-- Python `s.split('/')[-1]` on a string. -/
def lastPathComponent (s : String) : String := ⟨afterLastSep '/' s.data⟩

/-- Fuel-indexed replace-all over character lists (the fuel is the input
length, which bounds the number of scanning steps). -/
def replaceAllAux : Nat → List Char → List Char → List Char → List Char
  | 0, s, _, _ => s
  | _ + 1, [], _, _ => []
  | n + 1, c :: cs, pat, rep =>
    if pat ≠ [] ∧ (c :: cs).take pat.length = pat then
      rep ++ replaceAllAux n ((c :: cs).drop pat.length) pat rep
    else
      c :: replaceAllAux n cs pat rep

/-- Embeds Python `s.replace(pat, rep)` (replace every occurrence,
scanning left to right).  On an empty pattern it returns `s` unchanged;
the source only ever uses a nonempty pattern. -/
def pyReplace (s pat rep : String) : String :=
  ⟨replaceAllAux (s.data.length + 1) s.data pat.data rep.data⟩

/-- Embeds Python `', '.join(reasons)`. -/
def joinComma : List String → String
  | [] => ""
  | [x] => x
  | x :: y :: rest => x ++ ", " ++ joinComma (y :: rest)

/-- Embeds Python `int()` applied to a rational: truncation toward zero. -/
def pyInt (q : ℚ) : ℤ := if 0 ≤ q then ⌊q⌋ else -⌊-q⌋

/-! ## Configuration constants (module-level class attributes) -/

/-- `VEO_POLLING_INTERVAL_SECONDS = int(os.getenv(..., "5"))` (default). -/
def VEO_POLLING_INTERVAL_SECONDS : ℕ := 5

/-- `VEO_SIMULATED_TOTAL_GENERATION_TIME_SECONDS = int(os.getenv(..., "120"))`
(default), used as a rational in the simulated-progress formula. -/
def VEO_SIMULATED_TOTAL_GENERATION_TIME_SECONDS : ℚ := 120

/-- `SIGNED_URL_EXPIRATION_SECONDS = 3600*48`. -/
def SIGNED_URL_EXPIRATION_SECONDS : ℤ := 3600 * 48

/-! ## Data model: the backend operation object -/

/-- The `operation.error` attribute (when truthy): embeds
`getattr(error, 'message', str(error))` via an optional `message`
attribute and the `str()` form. -/
structure PyError where
  message : Option String
  strForm : String
deriving DecidableEq

/-- The `video` object inside a generated-video entry.  `mime_type` is
`none` for an absent/falsy attribute; `video_bytes` is the byte payload,
with `[]` standing for a falsy (None or empty) value. -/
structure VideoObj where
  mime_type : Option String
  video_bytes : List ℕ
deriving DecidableEq

/-- One entry of `response.generated_videos`.  `video = none` models an
entry whose `.video` attribute is None, so that attribute access on it
raises at runtime. -/
structure GeneratedVideo where
  video : Option VideoObj
deriving DecidableEq

/-- The `operation.response` object. `generated_videos = none` models an
absent/None list (only ever truth-tested).  For the two safety-filter
fields the outer `Option` is attribute presence (`hasattr`) and the
inner `Option` is the Python value (`none` = present but None): the
source compares the count with `> 0` and iterates the reasons, both of
which raise TypeError on a present None but not on a missing attribute
(the count is `hasattr`-guarded and the reasons use a `getattr`
default). -/
structure VeoResponse where
  generated_videos : Option (List GeneratedVideo)
  rai_media_filtered_count : Option (Option ℤ)
  rai_media_filtered_reasons : Option (Option (List String))
deriving DecidableEq

/-- A backend operation value, as the Python code observes it.
`done_attr = none` / `name_attr = none` model objects on which
`hasattr(op, 'done')` / `hasattr(op, 'name')` is False.  `pyType` and
`pyRepr` model `type(op)` and `str(op)`, used only in diagnostics. -/
structure PyOperation where
  done_attr : Option Bool
  name_attr : Option String
  error : Option PyError
  response : Option VeoResponse
  pyType : String
  pyRepr : String
deriving DecidableEq

/-- `generated_videos` of the operation when present and truthy,
else `[]` (covers response None, attribute None and empty list, all of
which fail the `if veo_operation.response and ...generated_videos:` test). -/
def respVideos (op : PyOperation) : List GeneratedVideo :=
  match op.response with
  | none => []
  | some r => r.generated_videos.getD []

/-- `mime_type = video_obj.mime_type or "video/mp4"`. -/
def mimeOf (vo : VideoObj) : String :=
  match vo.mime_type with
  | some m => if m ≠ "" then m else "video/mp4"
  | none => "video/mp4"

/-- `extension = mime_type.split('/')[-1] if '/' in mime_type else 'mp4'`. -/
def extFromMime (m : String) : String :=
  if m.data.contains '/' then ⟨afterLastSep '/' m.data⟩ else "mp4"

/-- The derived blob path
`f"{session_id}/veo_video_{session_id}_{uuid}.{extension}"`
(`video_filename_base` + extension, namespaced under the session id). -/
def gcsBlobName (session_id uuid mime : String) : String :=
  session_id ++ "/" ++ ("veo_video_" ++ session_id ++ "_" ++ uuid ++ "." ++ extFromMime mime)

/-! ## Events -/

/-- The `file_part_data` sub-dict of the success event. -/
structure FilePartData where
  uri : String
  mimeType : String
deriving DecidableEq

/-- One yielded dict of the stream.  Optional fields are `none` when the
corresponding key is absent from the yielded dict. -/
structure StreamEvent where
  is_task_complete : Bool
  progress_percent : ℤ
  updates : Option String := none
  content : Option String := none
  is_error : Option Bool := none
  final_message_text : Option String := none
  file_part_data : Option FilePartData := none
  artifact_name : Option String := none
  artifact_description : Option String := none
deriving DecidableEq

/-- `simulated_progress = min(int((elapsed_time / TOTAL) * 100), 99)`. -/
def simulated_progress (elapsed_time : ℚ) : ℤ :=
  min (pyInt (elapsed_time / VEO_SIMULATED_TOTAL_GENERATION_TIME_SECONDS * 100)) 99

/-- `current_progress = max(5, simulated_progress)`. -/
def current_progress (elapsed_time : ℚ) : ℤ :=
  max 5 (simulated_progress elapsed_time)

/-- The first yielded event (progress 0, before the try block). -/
def receivedPromptEvent (prompt : String) : StreamEvent :=
  { is_task_complete := false
    progress_percent := 0
    updates := some ("Received prompt: '" ++ prompt ++ "'. Starting VEO video generation.") }

/-- The event yielded right after the backend start call (progress 5). -/
def operationStartedEvent (nameRep : String) : StreamEvent :=
  { is_task_complete := false
    progress_percent := 5
    updates := some ("VEO operation '" ++ nameRep ++ "' started. Polling for completion...") }

/-- The per-iteration Working event of the polling loop. -/
def workingEvent (nameRep : String) (elapsed_time : ℚ) : StreamEvent :=
  { is_task_complete := false
    progress_percent := current_progress elapsed_time
    updates := some ("Video generation in progress (Operation: " ++ nameRep ++
      "). Simulated progress: " ++ toString (current_progress elapsed_time) ++ "%") }

/-- The terminal event yielded when a poll result lacks the expected
shape.  Note: unlike every other failure event, the source yields this
dict without an `is_error` key. -/
def pollProtocolEvent (session_id nameRep : String) (polled : PyOperation) : StreamEvent :=
  { is_task_complete := true
    progress_percent := 100
    content := some ("[" ++ session_id ++ "] VEO polling for '" ++ nameRep ++
      "' returned unexpected data type: " ++ polled.pyType ++ ". Value: " ++ take200 polled.pyRepr)
    final_message_text := some "Video generation polling encountered an API issue." }

/-- The terminal event for `operation.error` set. -/
def backendErrorEvent (err : PyError) : StreamEvent :=
  { is_task_complete := true
    progress_percent := 100
    content := some ("VEO video generation failed: " ++ err.message.getD err.strForm)
    is_error := some true
    final_message_text := some ("VEO video generation failed: " ++ err.message.getD err.strForm) }

/-- The terminal event for a video object with no bytes. -/
def noBytesEvent : StreamEvent :=
  { is_task_complete := true
    progress_percent := 100
    content := some "VEO response video_obj has no video_bytes, cannot proceed."
    is_error := some true
    final_message_text := some "Video processing failed due to missing video byte data." }

/-- The successful terminal event carrying the artifact reference. -/
def completedEvent (uri mime artifactName desc msg : String) : StreamEvent :=
  { is_task_complete := true
    progress_percent := 100
    file_part_data := some ⟨uri, mime⟩
    artifact_name := some artifactName
    artifact_description := some desc
    final_message_text := some msg }

/-- The terminal event of the (unreachable in practice) branch where the
upload returned a falsy URI. -/
def uploadNoUriEvent : StreamEvent :=
  { is_task_complete := true
    progress_percent := 100
    content := some "VEO generation completed, but failed to obtain a GCS URI after upload for signing."
    is_error := some true
    final_message_text := some "VEO generation completed, but failed to obtain a GCS URI after upload for signing." }

/-- The terminal event of the safety-filter branch, over the already
joined `', '.join(str(r) for r in reasons)` text. -/
def raiEvent (reasonsText : String) : StreamEvent :=
  { is_task_complete := true
    progress_percent := 100
    content := some ("Video generation was blocked by safety filters. Reasons: " ++ reasonsText)
    is_error := some true
    final_message_text := some ("Video generation was blocked by safety filters. Reasons: " ++ reasonsText) }

/-- The terminal event of the empty-result branch. -/
def genericEmptyEvent : StreamEvent :=
  { is_task_complete := true
    progress_percent := 100
    content := some "VEO generation completed, but no video was returned in the response and no explicit safety filter indicated."
    is_error := some true
    final_message_text := some "VEO generation completed, but no video was returned in the response and no explicit safety filter indicated." }

/-- The terminal event of the top-level `except Exception` handler. -/
def exceptEvent (session_id exnText : String) (kickedOff : Bool) (nameRep : String) : StreamEvent :=
  { is_task_complete := true
    progress_percent := 100
    content := some ("An error occurred during video generation stream for session_id " ++
      session_id ++ ": " ++ exnText ++ ". Context: " ++
      (if kickedOff then "VEO operation name: " ++ nameRep else "VEO operation not started."))
    is_error := some true
    final_message_text := some ("An unexpected error occurred: " ++ exnText) }

/-- The `TypeError` text raised when the current operation value lacks a
`done` attribute. -/
def doneTypeErrorMsg (session_id : String) (op : PyOperation) : String :=
  "[" ++ session_id ++ "] VEO operation variable is not a valid operation object before 'done' check. Type: " ++
    op.pyType ++ ", Value: " ++ take200 op.pyRepr

/-! ## The helper coroutines -/

/-- `_generate_signed_url`: attempt `blob.generate_signed_url` (outcome
supplied by the `signResult` oracle); on any exception fall back to the
raw `gs://` locator.  The expiration argument is threaded for fidelity
but does not influence the embedded control flow. -/
def generate_signed_url (signResult : Except String String)
    (blob_name bucket_name : String) (_expiration_seconds : ℤ) : String :=
  match signResult with
  | Except.ok url => url
  | Except.error _ => "gs://" ++ bucket_name ++ "/" ++ blob_name

/-- `_upload_bytes_to_gcs`, with the local filesystem made explicit: the
returned Bool is whether the temporary file exists when control leaves
the function.  `openRes` is the outcome of `open(temp_file_path, 'wb')`
(which creates the file when it succeeds), `writeRes` of `f.write`, and
`uploadRes` of `blob.upload_from_filename`; the `finally` block removes
the file whenever it exists.  The `Except.ok` result is the returned
`gs://` URI; an `Except.error` result is the exception propagating out. -/
def upload_bytes_to_gcs (openRes writeRes uploadRes : Except String Unit)
    (bucket_name blob_name : String) : Bool × Except String String :=
  match openRes with
  | Except.error e =>
    -- open failed before creating the file; finally finds nothing to remove
    let tempExists := false
    (if tempExists then false else tempExists, Except.error e)
  | Except.ok _ =>
    -- the file now exists
    let tempExists := true
    match writeRes with
    | Except.error e => (if tempExists then false else tempExists, Except.error e)
    | Except.ok _ =>
      match uploadRes with
      | Except.error e => (if tempExists then false else tempExists, Except.error e)
      | Except.ok _ =>
        (if tempExists then false else tempExists,
         Except.ok ("gs://" ++ bucket_name ++ "/" ++ blob_name))

/-- The temporary path `os.path.join(tempfile.gettempdir(), blob_name.split('/')[-1])`. -/
def tempFilePath (tempDir blob_name : String) : String :=
  tempDir ++ "/" ++ lastPathComponent blob_name

/-! ## The polling loop -/

/-- Outcome of the `while True` polling loop. -/
inductive LoopExit where
  /-- `veo_operation.done` was truthy: `break` with the final operation
  value and the current reporting name. -/
  | broke (op : PyOperation) (nameRep : String)
  /-- the malformed-poll branch yielded its terminal event and returned. -/
  | protocol
  /-- an exception escaped the loop (raised `TypeError`, or an exception
  from the poll call), to be caught by the top-level handler. -/
  | exn (msg : String) (nameRep : String)
  /-- the oracle ran out of poll results while `done` was still falsy:
  the real loop would keep polling (models non-termination). -/
  | fuel (op : PyOperation) (nameRep : String)
deriving DecidableEq

/-- Result of the loop head: raise `TypeError`, `break`, or proceed into
the loop body. -/
inductive DoneCheck where
  | raiseTypeError (msg : String)
  | breakLoop
  | proceed
deriving DecidableEq

/-- The checks at the top of each iteration:
`if not hasattr(veo_operation, 'done'): raise TypeError(...)` then
`if veo_operation.done: break`. -/
def doneCheck (session_id : String) (op : PyOperation) : DoneCheck :=
  match op.done_attr with
  | none => DoneCheck.raiseTypeError (doneTypeErrorMsg session_id op)
  | some d => if d then DoneCheck.breakLoop else DoneCheck.proceed

/-- The polling loop.  Each list element supplies one iteration's poll
outcome together with the `time.monotonic() - start_time` reading taken
after it.  Returns the yielded events and how the loop ended. -/
def pollLoop (session_id : String) :
    List (ℚ × Except String PyOperation) → PyOperation → String →
    List StreamEvent × LoopExit
  | [], op, nameRep =>
    (match doneCheck session_id op with
     | DoneCheck.raiseTypeError m => ([], LoopExit.exn m nameRep)
     | DoneCheck.breakLoop => ([], LoopExit.broke op nameRep)
     | DoneCheck.proceed => ([], LoopExit.fuel op nameRep))
  | (elapsed, pollRes) :: rest, op, nameRep =>
    (match doneCheck session_id op with
     | DoneCheck.raiseTypeError m => ([], LoopExit.exn m nameRep)
     | DoneCheck.breakLoop => ([], LoopExit.broke op nameRep)
     | DoneCheck.proceed =>
       match pollRes with
       | Except.error e => ([], LoopExit.exn e nameRep)
       | Except.ok polled =>
         if polled.done_attr.isSome && polled.name_attr.isSome then
           let nameRep2 := if strTruthy polled.name_attr then polled.name_attr.getD nameRep else nameRep
           let r := pollLoop session_id rest polled nameRep2
           (workingEvent nameRep2 elapsed :: r.1, r.2)
         else
           ([pollProtocolEvent session_id nameRep polled], LoopExit.protocol))

/-! ## After the loop: error check, finalization, empty-result handling -/

/-- Result of the post-loop region: the events it yields, an exception
escaping to the top-level handler, and how many times
`_upload_bytes_to_gcs` was invoked. -/
structure FinalizeResult where
  events : List StreamEvent
  exnOut : Option String
  uploads : ℕ
deriving DecidableEq

/-- The TypeError Python raises at the `rai_media_filtered_count > 0`
comparison when the attribute is present with value None. -/
def countTypeErrorMsg : String :=
  "TypeError: '>' not supported between instances of 'NoneType' and 'int'"

/-- The TypeError Python raises when `', '.join(...)` iterates a
present-but-None `rai_media_filtered_reasons` value. -/
def joinTypeErrorMsg : String :=
  "TypeError: 'NoneType' object is not iterable"

/-- Lines 335-355 of `stream`: the `elif hasattr(response,
'rai_media_filtered_count') and response.rai_media_filtered_count > 0`
branch and the final `else`.  `hasattr(None, ...)` is False for a None
response; a present-but-None count raises TypeError inside the guard;
when the count is a positive number, `reasons = getattr(response,
'rai_media_filtered_reasons', ['Unknown safety filter.'])` defaults
only for a missing attribute, and the join raises TypeError on a
present-but-None value. -/
def emptyResultEvents (op : PyOperation) : FinalizeResult :=
  match op.response with
  | none => ⟨[genericEmptyEvent], none, 0⟩
  | some r =>
    match r.rai_media_filtered_count with
    | none => ⟨[genericEmptyEvent], none, 0⟩
    | some none => ⟨[], some countTypeErrorMsg, 0⟩
    | some (some c) =>
      if 0 < c then
        match r.rai_media_filtered_reasons with
        | none => ⟨[raiEvent (joinComma ["Unknown safety filter."])], none, 0⟩
        | some none => ⟨[], some joinTypeErrorMsg, 0⟩
        | some (some reasons) => ⟨[raiEvent (joinComma reasons)], none, 0⟩
      else ⟨[genericEmptyEvent], none, 0⟩

/-- Lines 244-355 of `stream`: runs once control survived the post-loop
log line (agent.py:242, see `streamRun`).  `uploadRes` is the outcome
of the `_upload_bytes_to_gcs` call (an `Except.error` is an exception
propagating from it) and `signRes` the outcome of the
`blob.generate_signed_url` call inside `_generate_signed_url`. -/
def afterBreak (prompt session_id uuid bucket : String)
    (uploadRes : Except String Unit) (signRes : Except String String)
    (op : PyOperation) : FinalizeResult :=
  match op.error with
  | some err => ⟨[backendErrorEvent err], none, 0⟩
  | none =>
    match respVideos op with
    | gv :: _ =>
      match gv.video with
      | none =>
        -- `video_obj.mime_type` on None raises AttributeError
        ⟨[], some "AttributeError: 'NoneType' object has no attribute 'mime_type'", 0⟩
      | some vo =>
        let mime := mimeOf vo
        if vo.video_bytes = [] then ⟨[noBytesEvent], none, 0⟩
        else
          let gcs_blob_name := gcsBlobName session_id uuid mime
          match uploadRes with
          | Except.error e => ⟨[], some e, 1⟩
          | Except.ok _ =>
            let gcs_uri := "gs://" ++ bucket ++ "/" ++ gcs_blob_name
            if gcs_uri ≠ "" then
              let blob_name_for_signing := pyReplace gcs_uri ("gs://" ++ bucket ++ "/") ""
              let signed_gcs_url :=
                generate_signed_url signRes blob_name_for_signing bucket SIGNED_URL_EXPIRATION_SECONDS
              let video_filename_for_artifact := lastPathComponent gcs_uri
              let artifact_description :=
                "Generated video for prompt: '" ++ prompt ++ "'. Original GCS location: " ++ gcs_uri
              let completion_message :=
                if signed_gcs_url = gcs_uri then
                  "Video generation successful. Video stored at GCS: " ++ gcs_uri ++
                    ". A signed URL could not be generated."
                else
                  "Video generation successful. Access video at link (expires): " ++ signed_gcs_url ++
                    ". Original GCS location: " ++ gcs_uri
              ⟨[completedEvent signed_gcs_url mime video_filename_for_artifact artifact_description
                  completion_message], none, 1⟩
            else ⟨[uploadNoUriEvent], none, 1⟩
    | [] => emptyResultEvents op

/-! ## The whole stream -/

/-- The environment a single `stream` run observes: the outcome of the
`generate_videos` start call, the successive poll outcomes with their
clock readings, the generated random component (`uuid.uuid4()`), the
bucket name, and the storage outcomes. -/
structure Env where
  start : Except String PyOperation
  steps : List (ℚ × Except String PyOperation)
  uuid : String
  bucket : String
  uploadRes : Except String Unit
  signRes : Except String String

/-- A whole run of `stream`: the yielded events, whether the generator
finished (False when the poll oracle ran out while the loop would keep
going), and how many times the finalizing upload was invoked. -/
structure RunResult where
  events : List StreamEvent
  terminated : Bool
  uploads : ℕ
deriving DecidableEq

/-- The AttributeError raised by the unguarded `veo_operation.name`
access in the post-loop log f-string (agent.py:242) when the broke
operation object has no `name` attribute. -/
def nameAttrErrorMsg (op : PyOperation) : String :=
  "AttributeError: " ++ op.pyType ++ " object has no attribute 'name'"

/-- `veo_operation_name_for_reporting` right after the start call:
`op.name` when the attribute exists and is truthy, else `"N/A"`. -/
def startName (op : PyOperation) : String :=
  if strTruthy op.name_attr then op.name_attr.getD "N/A" else "N/A"

/-- The `stream(prompt, session_id)` coroutine as a whole, over the
environment `env`.  The first event is yielded before the `try` block;
every exception escaping the body is converted by the single
`except Exception` handler into one Failed terminal event. -/
def streamRun (env : Env) (prompt session_id : String) : RunResult :=
  let e0 := receivedPromptEvent prompt
  match env.start with
  | Except.error e =>
    ⟨[e0, exceptEvent session_id e false "N/A"], true, 0⟩
  | Except.ok op0 =>
    let n0 := startName op0
    let e1 := operationStartedEvent n0
    let r := pollLoop session_id env.steps op0 n0
    match r.2 with
    | LoopExit.protocol => ⟨e0 :: e1 :: r.1, true, 0⟩
    | LoopExit.fuel _ _ => ⟨e0 :: e1 :: r.1, false, 0⟩
    | LoopExit.exn m nameRep =>
      ⟨e0 :: e1 :: (r.1 ++ [exceptEvent session_id m true nameRep]), true, 0⟩
    | LoopExit.broke opb nameRep =>
      -- agent.py:242 logs an f-string reading `veo_operation.name`
      -- unguarded before the error check; a missing attribute raises
      -- AttributeError into the top-level handler
      match opb.name_attr with
      | none =>
        ⟨e0 :: e1 :: (r.1 ++ [exceptEvent session_id (nameAttrErrorMsg opb) true nameRep]),
          true, 0⟩
      | some _ =>
        let f := afterBreak prompt session_id env.uuid env.bucket env.uploadRes env.signRes opb
        match f.exnOut with
        | none => ⟨e0 :: e1 :: (r.1 ++ f.events), true, f.uploads⟩
        | some m =>
          ⟨e0 :: e1 :: (r.1 ++ f.events ++ [exceptEvent session_id m true nameRep]), true, f.uploads⟩

end VeoSpec

namespace VeoSpec

/-! ## Basic lemmas about the progress estimate -/

lemma cp_ge_five (e : ℚ) : (5 : ℤ) ≤ current_progress e := le_max_left _ _

lemma cp_le_99 (e : ℚ) : current_progress e ≤ 99 :=
  max_le (by norm_num) (min_le_right _ _)

lemma cp_mono {a b : ℚ} (h0 : 0 ≤ a) (hab : a ≤ b) :
    current_progress a ≤ current_progress b := by
  unfold current_progress simulated_progress pyInt
  have hden : (0 : ℚ) < VEO_SIMULATED_TOTAL_GENERATION_TIME_SECONDS := by
    unfold VEO_SIMULATED_TOTAL_GENERATION_TIME_SECONDS; norm_num
  have ha : 0 ≤ a / VEO_SIMULATED_TOTAL_GENERATION_TIME_SECONDS * 100 :=
    mul_nonneg (div_nonneg h0 hden.le) (by norm_num)
  have hb : 0 ≤ b / VEO_SIMULATED_TOTAL_GENERATION_TIME_SECONDS * 100 :=
    mul_nonneg (div_nonneg (h0.trans hab) hden.le) (by norm_num)
  rw [if_pos ha, if_pos hb]
  refine max_le_max le_rfl (min_le_min (Int.floor_mono ?_) le_rfl)
  gcongr

/-! ## Structure of the polling loop -/

lemma doneCheck_break {sid : String} {op : PyOperation}
    (h : doneCheck sid op = DoneCheck.breakLoop) : op.done_attr = some true := by
  unfold doneCheck at h
  rcases hd : op.done_attr with _ | d
  · rw [hd] at h; exact absurd h (by simp)
  · rw [hd] at h
    rcases d
    · simp at h
    · rfl

/-- Master structural lemma for the polling loop: its event list splits
into a run of Working events (whose percentages are the simulated
progress of a prefix of the supplied clock readings) followed by at most
one protocol-violation terminal event; and a `broke` exit certifies a
truthy `done` attribute on the final operation. -/
lemma pollLoop_master (sid : String) :
    ∀ (steps : List (ℚ × Except String PyOperation)) (op : PyOperation) (nameRep : String),
    ∃ ws tl pre rest,
      (pollLoop sid steps op nameRep).1 = ws ++ tl ∧
      steps.map Prod.fst = pre ++ rest ∧
      (∀ ev ∈ ws, ev.is_task_complete = false) ∧
      ws.map (fun ev => ev.progress_percent) = pre.map current_progress ∧
      ((tl = [] ∧ (pollLoop sid steps op nameRep).2 ≠ LoopExit.protocol) ∨
        (∃ pe, tl = [pe] ∧ pe.is_task_complete = true ∧ pe.progress_percent = 100 ∧
          pe.is_error = none ∧ pe.file_part_data = none ∧
          (pollLoop sid steps op nameRep).2 = LoopExit.protocol)) ∧
      (∀ op' n', (pollLoop sid steps op nameRep).2 = LoopExit.broke op' n' →
        op'.done_attr = some true) := by
  intro steps
  induction steps with
  | nil =>
    intro op nameRep
    refine ⟨[], [], [], [], ?_, ?_, ?_, ?_, ?_, ?_⟩
    · rcases hdc : doneCheck sid op with m | _ | _ <;> simp [pollLoop, hdc]
    · simp
    · simp
    · rfl
    · refine Or.inl ⟨rfl, ?_⟩
      rcases hdc : doneCheck sid op with m | _ | _ <;> simp [pollLoop, hdc]
    · intro op' n' h
      rcases hdc : doneCheck sid op with m | _ | _ <;> simp [pollLoop, hdc] at h
      rw [← h.1]; exact doneCheck_break hdc
  | cons head tail ih =>
    obtain ⟨e, pr⟩ := head
    intro op nameRep
    rcases hdc : doneCheck sid op with m | _ | _
    · refine ⟨[], [], [], e :: tail.map Prod.fst, ?_, ?_, ?_, ?_, ?_, ?_⟩
      · simp [pollLoop, hdc]
      · simp
      · simp
      · rfl
      · exact Or.inl ⟨rfl, by simp [pollLoop, hdc]⟩
      · intro op' n' h; simp [pollLoop, hdc] at h
    · refine ⟨[], [], [], e :: tail.map Prod.fst, ?_, ?_, ?_, ?_, ?_, ?_⟩
      · simp [pollLoop, hdc]
      · simp
      · simp
      · rfl
      · exact Or.inl ⟨rfl, by simp [pollLoop, hdc]⟩
      · intro op' n' h
        simp [pollLoop, hdc] at h
        rw [← h.1]; exact doneCheck_break hdc
    · rcases pr with em | polled
      · refine ⟨[], [], [], e :: tail.map Prod.fst, ?_, ?_, ?_, ?_, ?_, ?_⟩
        · simp [pollLoop, hdc]
        · simp
        · simp
        · rfl
        · exact Or.inl ⟨rfl, by simp [pollLoop, hdc]⟩
        · intro op' n' h; simp [pollLoop, hdc] at h
      · by_cases hshape : (polled.done_attr.isSome && polled.name_attr.isSome) = true
        · obtain ⟨ws, tl, pre, rest, h1, h2, h3, h4, h5, h6⟩ :=
            ih polled (if strTruthy polled.name_attr then polled.name_attr.getD nameRep else nameRep)
          refine ⟨workingEvent
              (if strTruthy polled.name_attr then polled.name_attr.getD nameRep else nameRep) e :: ws,
            tl, e :: pre, rest, ?_, ?_, ?_, ?_, ?_, ?_⟩
          · simp only [pollLoop, hdc, hshape, if_true, List.cons_append]
            rw [h1]
          · simp [h2]
          · intro ev hev
            rcases List.mem_cons.mp hev with h | h
            · rw [h]; rfl
            · exact h3 ev h
          · simp only [List.map_cons, h4]; rfl
          · simp only [pollLoop, hdc, hshape, if_true]
            exact h5
          · simp only [pollLoop, hdc, hshape, if_true]
            exact h6
        · refine ⟨[], [pollProtocolEvent sid nameRep polled], [], e :: tail.map Prod.fst,
            ?_, by simp, by simp, rfl, ?_, ?_⟩
          · simp [pollLoop, hdc, hshape]
          · refine Or.inr ⟨pollProtocolEvent sid nameRep polled, rfl, rfl, rfl, rfl, rfl, ?_⟩
            simp [pollLoop, hdc, hshape]
          · intro op' n' h
            simp [pollLoop, hdc, hshape] at h

end VeoSpec

namespace VeoSpec

/-- `emptyResultEvents` yields the generic event, one of the two
TypeError exceptions, or a safety-filter event over some joined text. -/
lemma emptyResultEvents_cases (op : PyOperation) :
    emptyResultEvents op = ⟨[genericEmptyEvent], none, 0⟩ ∨
    emptyResultEvents op = ⟨[], some countTypeErrorMsg, 0⟩ ∨
    emptyResultEvents op = ⟨[], some joinTypeErrorMsg, 0⟩ ∨
    ∃ txt, emptyResultEvents op = ⟨[raiEvent txt], none, 0⟩ := by
  unfold emptyResultEvents
  rcases op.response with _ | r
  · exact Or.inl rfl
  · dsimp only
    rcases r.rai_media_filtered_count with _ | oc
    · exact Or.inl rfl
    · rcases oc with _ | c
      · exact Or.inr (Or.inl rfl)
      · dsimp only
        by_cases h0 : 0 < c
        · rw [if_pos h0]
          rcases r.rai_media_filtered_reasons with _ | ors
          · exact Or.inr (Or.inr (Or.inr ⟨_, rfl⟩))
          · rcases ors with _ | l
            · exact Or.inr (Or.inr (Or.inl rfl))
            · exact Or.inr (Or.inr (Or.inr ⟨_, rfl⟩))
        · rw [if_neg h0]
          exact Or.inl rfl

/-- Master case analysis of the post-loop region: the finalizer is
invoked at most once; it yields either nothing (with an exception
escaping to the top-level handler) or exactly one terminal event at
100 percent; and an invocation of the finalizer certifies no backend
error and a nonempty payload. -/
lemma afterBreak_master (p sid u b : String) (up : Except String Unit)
    (sg : Except String String) (op : PyOperation) :
    (afterBreak p sid u b up sg op).uploads ≤ 1 ∧
    (((afterBreak p sid u b up sg op).events = [] ∧
        ∃ m, (afterBreak p sid u b up sg op).exnOut = some m) ∨
      (∃ t, (afterBreak p sid u b up sg op).events = [t] ∧
        (afterBreak p sid u b up sg op).exnOut = none ∧
        t.is_task_complete = true ∧ t.progress_percent = 100)) ∧
    ((afterBreak p sid u b up sg op).uploads = 1 →
      op.error = none ∧ ∃ gv rest vo, respVideos op = gv :: rest ∧
        gv.video = some vo ∧ vo.video_bytes ≠ []) := by
  unfold afterBreak
  rcases herr : op.error with _ | err
  · rcases hv : respVideos op with _ | ⟨gv, rest⟩
    <;> dsimp only
    · rcases emptyResultEvents_cases op with heq | heq | heq | ⟨txt, heq⟩
      <;> rw [heq]
      · exact ⟨Nat.zero_le 1, Or.inr ⟨_, rfl, rfl, rfl, rfl⟩,
          fun h => absurd h Nat.zero_ne_one⟩
      · exact ⟨Nat.zero_le 1, Or.inl ⟨rfl, _, rfl⟩, fun h => absurd h Nat.zero_ne_one⟩
      · exact ⟨Nat.zero_le 1, Or.inl ⟨rfl, _, rfl⟩, fun h => absurd h Nat.zero_ne_one⟩
      · exact ⟨Nat.zero_le 1, Or.inr ⟨_, rfl, rfl, rfl, rfl⟩,
          fun h => absurd h Nat.zero_ne_one⟩
    · rcases hvo : gv.video with _ | vo
      <;> dsimp only
      · exact ⟨Nat.zero_le 1, Or.inl ⟨rfl, _, rfl⟩, fun h => absurd h Nat.zero_ne_one⟩
      · by_cases hbytes : vo.video_bytes = []
        · rw [if_pos hbytes]
          exact ⟨Nat.zero_le 1, Or.inr ⟨_, rfl, rfl, rfl, rfl⟩,
            fun h => absurd h Nat.zero_ne_one⟩
        · rw [if_neg hbytes]
          rcases hup : up with e | _
          <;> dsimp only
          · exact ⟨Nat.le_refl 1, Or.inl ⟨rfl, _, rfl⟩,
              fun _ => ⟨rfl, gv, rest, vo, rfl, hvo, hbytes⟩⟩
          · by_cases hne : ("gs://" ++ b ++ "/" ++ gcsBlobName sid u (mimeOf vo)) ≠ ""
            · rw [if_pos hne]
              exact ⟨Nat.le_refl 1, Or.inr ⟨_, rfl, rfl, rfl, rfl⟩,
                fun _ => ⟨rfl, gv, rest, vo, rfl, hvo, hbytes⟩⟩
            · rw [if_neg hne]
              exact ⟨Nat.le_refl 1, Or.inr ⟨_, rfl, rfl, rfl, rfl⟩,
                fun _ => ⟨rfl, gv, rest, vo, rfl, hvo, hbytes⟩⟩
  · exact ⟨Nat.zero_le 1, Or.inr ⟨_, rfl, rfl, rfl, rfl⟩, fun h => absurd h Nat.zero_ne_one⟩

end VeoSpec

namespace VeoSpec

/-- Every run of the stream either ends in exactly one terminal event
preceded only by non-terminal events, or the poll oracle ran out (the
real loop would still be polling) and no terminal event was emitted. -/
lemma streamRun_split (env : Env) (p sid : String) :
    (∃ pre t, (streamRun env p sid).events = pre ++ [t] ∧ t.is_task_complete = true ∧
      ∀ ev ∈ pre, ev.is_task_complete = false) ∨
    ((streamRun env p sid).terminated = false ∧
      ∀ ev ∈ (streamRun env p sid).events, ev.is_task_complete = false) := by
  unfold streamRun
  rcases hstart : env.start with e | op0
  · refine Or.inl ⟨[receivedPromptEvent p], exceptEvent sid e false "N/A", rfl, rfl, ?_⟩
    intro ev hev
    simp only [List.mem_singleton] at hev
    rw [hev]; rfl
  · dsimp only
    obtain ⟨ws, tl, pre, rest, h1, h2, h3, h4, h5, h6⟩ :=
      pollLoop_master sid env.steps op0 (startName op0)
    rcases hx : (pollLoop sid env.steps op0 (startName op0)).2 with
      ⟨opb, nrep⟩ | _ | ⟨m, nrep⟩ | ⟨opf, nf⟩
    <;> dsimp only
    · -- loop broke: first the unguarded name read of the log line
      rcases hnm : opb.name_attr with _ | nval
      <;> dsimp only
      · -- no name attribute: AttributeError into the top-level handler
        rcases h5 with ⟨htl, _⟩ | ⟨pe, _, _, _, _, _, hprot⟩
        · refine Or.inl ⟨receivedPromptEvent p :: operationStartedEvent (startName op0) :: ws,
            exceptEvent sid (nameAttrErrorMsg opb) true nrep, ?_, rfl, ?_⟩
          · rw [h1, htl]; simp
          · intro ev hmem
            rcases List.mem_cons.mp hmem with hh | hmem
            · rw [hh]; rfl
            rcases List.mem_cons.mp hmem with hh | hmem
            · rw [hh]; rfl
            · exact h3 ev hmem
        · rw [hx] at hprot; simp at hprot
      · -- name present: the post-loop region decides the outcome
        obtain ⟨_, hd, _⟩ :=
          afterBreak_master p sid env.uuid env.bucket env.uploadRes env.signRes opb
        rcases h5 with ⟨htl, _⟩ | ⟨pe, _, _, _, _, _, hprot⟩
        · rcases hd with ⟨hev, m, hex⟩ | ⟨t, hev, hex, ht, _⟩
          · rw [hex]; dsimp only
            refine Or.inl ⟨receivedPromptEvent p :: operationStartedEvent (startName op0) :: ws,
              exceptEvent sid m true nrep, ?_, rfl, ?_⟩
            · rw [h1, htl, hev]; simp
            · intro ev hmem
              rcases List.mem_cons.mp hmem with hh | hmem
              · rw [hh]; rfl
              rcases List.mem_cons.mp hmem with hh | hmem
              · rw [hh]; rfl
              · exact h3 ev hmem
          · rw [hex]; dsimp only
            refine Or.inl ⟨receivedPromptEvent p :: operationStartedEvent (startName op0) :: ws,
              t, ?_, ht, ?_⟩
            · rw [h1, htl, hev]; simp
            · intro ev hmem
              rcases List.mem_cons.mp hmem with hh | hmem
              · rw [hh]; rfl
              rcases List.mem_cons.mp hmem with hh | hmem
              · rw [hh]; rfl
              · exact h3 ev hmem
        · rw [hx] at hprot; simp at hprot
    · -- protocol violation: the loop itself yielded the terminal event
      rcases h5 with ⟨_, hne⟩ | ⟨pe, htl, hpe1, _, _, _, _⟩
      · exact absurd hx hne
      · refine Or.inl ⟨receivedPromptEvent p :: operationStartedEvent (startName op0) :: ws,
          pe, ?_, hpe1, ?_⟩
        · rw [h1, htl]; simp
        · intro ev hmem
          rcases List.mem_cons.mp hmem with hh | hmem
          · rw [hh]; rfl
          rcases List.mem_cons.mp hmem with hh | hmem
          · rw [hh]; rfl
          · exact h3 ev hmem
    · -- an exception escaped the loop; the top-level handler terminates
      rcases h5 with ⟨htl, _⟩ | ⟨pe, _, _, _, _, _, hprot⟩
      · refine Or.inl ⟨receivedPromptEvent p :: operationStartedEvent (startName op0) :: ws,
          exceptEvent sid m true nrep, ?_, rfl, ?_⟩
        · rw [h1, htl]; simp
        · intro ev hmem
          rcases List.mem_cons.mp hmem with hh | hmem
          · rw [hh]; rfl
          rcases List.mem_cons.mp hmem with hh | hmem
          · rw [hh]; rfl
          · exact h3 ev hmem
      · rw [hx] at hprot; simp at hprot
    · -- fuel ran out: not a fully consumed sequence
      rcases h5 with ⟨htl, _⟩ | ⟨pe, _, _, _, _, _, hprot⟩
      · refine Or.inr ⟨rfl, ?_⟩
        intro ev hmem
        rcases List.mem_cons.mp hmem with hh | hmem
        · rw [hh]; rfl
        rcases List.mem_cons.mp hmem with hh | hmem
        · rw [hh]; rfl
        · rw [h1, htl, List.append_nil] at hmem
          exact h3 ev hmem
      · rw [hx] at hprot; simp at hprot

end VeoSpec

namespace VeoSpec

lemma filter_working_eq (ws : List StreamEvent)
    (h : ∀ ev ∈ ws, ev.is_task_complete = false) :
    ws.filter (fun ev => !ev.is_task_complete) = ws :=
  List.filter_eq_self.mpr (fun ev hev => by rw [h ev hev]; rfl)

lemma chain_cp_map : ∀ (l : List ℚ), List.Chain' (· ≤ ·) l → (∀ q ∈ l, 0 ≤ q) →
    List.Chain' (· ≤ ·) (l.map current_progress) := by
  intro l
  induction l with
  | nil => intro _ _; simp
  | cons x xs ih =>
    intro hc h0
    rcases xs with _ | ⟨y, ys⟩
    · simp
    · rw [List.map_cons, List.map_cons]
      rw [List.chain'_cons] at hc ⊢
      refine ⟨cp_mono (h0 x (List.mem_cons_self x _)) hc.1, ?_⟩
      rw [← List.map_cons]
      exact ih hc.2 (fun q hq => h0 q (List.mem_cons_of_mem x hq))

lemma chain_five_cp (l : List ℚ) (h : List.Chain' (· ≤ ·) (l.map current_progress)) :
    List.Chain' (· ≤ ·) ((5 : ℤ) :: l.map current_progress) := by
  rcases l with _ | ⟨x, xs⟩
  · simp
  · rw [List.map_cons] at h ⊢
    exact List.chain'_cons.mpr ⟨cp_ge_five x, h⟩

/-- Every terminal event a run emits carries `progress_percent = 100`. -/
lemma streamRun_terminal_100 (env : Env) (p sid : String) :
    ∀ ev ∈ (streamRun env p sid).events, ev.is_task_complete = true →
      ev.progress_percent = 100 := by
  unfold streamRun
  rcases hstart : env.start with e | op0
  · intro ev hmem hterm
    rcases List.mem_cons.mp hmem with hh | hmem
    · rw [hh] at hterm; exact absurd hterm Bool.false_ne_true
    rcases List.mem_cons.mp hmem with hh | hmem
    · rw [hh]; rfl
    · simp at hmem
  · dsimp only
    obtain ⟨ws, tl, pre, rest, h1, h2, h3, h4, h5, h6⟩ :=
      pollLoop_master sid env.steps op0 (startName op0)
    rcases hx : (pollLoop sid env.steps op0 (startName op0)).2 with
      ⟨opb, nrep⟩ | _ | ⟨m, nrep⟩ | ⟨opf, nf⟩
    <;> dsimp only
    · rcases hnm : opb.name_attr with _ | nval
      <;> dsimp only
      · rcases h5 with ⟨htl, _⟩ | ⟨pe, _, _, _, _, _, hprot⟩
        · rw [h1, htl]
          intro ev hmem hterm
          rcases List.mem_cons.mp hmem with hh | hmem
          · rw [hh] at hterm; exact absurd hterm Bool.false_ne_true
          rcases List.mem_cons.mp hmem with hh | hmem
          · rw [hh] at hterm; exact absurd hterm Bool.false_ne_true
          simp only [List.append_nil, List.mem_append, List.mem_singleton] at hmem
          rcases hmem with hmem | hh
          · rw [h3 ev hmem] at hterm; exact absurd hterm Bool.false_ne_true
          · rw [hh]; rfl
        · rw [hx] at hprot; simp at hprot
      · obtain ⟨_, hd, _⟩ :=
          afterBreak_master p sid env.uuid env.bucket env.uploadRes env.signRes opb
        rcases h5 with ⟨htl, _⟩ | ⟨pe, _, _, _, _, _, hprot⟩
        · rcases hd with ⟨hev, m, hex⟩ | ⟨t, hev, hex, ht, hp⟩
          <;> rw [hex] <;> dsimp only <;> rw [h1, htl, hev] <;>
            intro ev hmem hterm
          · rcases List.mem_cons.mp hmem with hh | hmem
            · rw [hh] at hterm; exact absurd hterm Bool.false_ne_true
            rcases List.mem_cons.mp hmem with hh | hmem
            · rw [hh] at hterm; exact absurd hterm Bool.false_ne_true
            simp only [List.append_nil, List.nil_append, List.mem_append,
              List.mem_singleton] at hmem
            rcases hmem with hmem | hh
            · rw [h3 ev hmem] at hterm; exact absurd hterm Bool.false_ne_true
            · rw [hh]; rfl
          · rcases List.mem_cons.mp hmem with hh | hmem
            · rw [hh] at hterm; exact absurd hterm Bool.false_ne_true
            rcases List.mem_cons.mp hmem with hh | hmem
            · rw [hh] at hterm; exact absurd hterm Bool.false_ne_true
            simp only [List.append_nil, List.mem_append, List.mem_singleton] at hmem
            rcases hmem with hmem | hh
            · rw [h3 ev hmem] at hterm; exact absurd hterm Bool.false_ne_true
            · rw [hh]; exact hp
        · rw [hx] at hprot; simp at hprot
    · rcases h5 with ⟨_, hne⟩ | ⟨pe, htl, hpe1, hpe2, _, _, _⟩
      · exact absurd hx hne
      · rw [h1, htl]
        intro ev hmem hterm
        rcases List.mem_cons.mp hmem with hh | hmem
        · rw [hh] at hterm; exact absurd hterm Bool.false_ne_true
        rcases List.mem_cons.mp hmem with hh | hmem
        · rw [hh] at hterm; exact absurd hterm Bool.false_ne_true
        simp only [List.mem_append, List.mem_singleton] at hmem
        rcases hmem with hmem | hh
        · rw [h3 ev hmem] at hterm; exact absurd hterm Bool.false_ne_true
        · rw [hh]; exact hpe2
    · rcases h5 with ⟨htl, _⟩ | ⟨pe, _, _, _, _, _, hprot⟩
      · rw [h1, htl]
        intro ev hmem hterm
        rcases List.mem_cons.mp hmem with hh | hmem
        · rw [hh] at hterm; exact absurd hterm Bool.false_ne_true
        rcases List.mem_cons.mp hmem with hh | hmem
        · rw [hh] at hterm; exact absurd hterm Bool.false_ne_true
        simp only [List.append_nil, List.mem_append, List.mem_singleton] at hmem
        rcases hmem with hmem | hh
        · rw [h3 ev hmem] at hterm; exact absurd hterm Bool.false_ne_true
        · rw [hh]; rfl
      · rw [hx] at hprot; simp at hprot
    · rcases h5 with ⟨htl, _⟩ | ⟨pe, _, _, _, _, _, hprot⟩
      · rw [h1, htl]
        intro ev hmem hterm
        rcases List.mem_cons.mp hmem with hh | hmem
        · rw [hh] at hterm; exact absurd hterm Bool.false_ne_true
        rcases List.mem_cons.mp hmem with hh | hmem
        · rw [hh] at hterm; exact absurd hterm Bool.false_ne_true
        rw [List.append_nil] at hmem
        rw [h3 ev hmem] at hterm; exact absurd hterm Bool.false_ne_true
      · rw [hx] at hprot; simp at hprot

end VeoSpec

namespace VeoSpec

/-- The percentages of the non-terminal events of a run: `0`, then `5`,
then the simulated progress of a prefix of the clock readings (or just
`0` when the start call itself raised). -/
lemma streamRun_nonterm_percents (env : Env) (p sid : String) :
    (((streamRun env p sid).events.filter (fun ev => !ev.is_task_complete)).map
        (fun ev => ev.progress_percent) = [0]) ∨
    ∃ pre rest, env.steps.map Prod.fst = pre ++ rest ∧
      ((streamRun env p sid).events.filter (fun ev => !ev.is_task_complete)).map
        (fun ev => ev.progress_percent) = 0 :: 5 :: pre.map current_progress := by
  unfold streamRun
  rcases hstart : env.start with e | op0
  · left
    simp [List.filter_cons, receivedPromptEvent, exceptEvent]
  · dsimp only
    obtain ⟨ws, tl, pre, rest, h1, h2, h3, h4, h5, h6⟩ :=
      pollLoop_master sid env.steps op0 (startName op0)
    rcases hx : (pollLoop sid env.steps op0 (startName op0)).2 with
      ⟨opb, nrep⟩ | _ | ⟨m, nrep⟩ | ⟨opf, nf⟩
    <;> dsimp only
    · rcases hnm : opb.name_attr with _ | nval
      <;> dsimp only
      · rcases h5 with ⟨htl, _⟩ | ⟨pe, _, _, _, _, _, hprot⟩
        · rw [h1, htl]
          refine Or.inr ⟨pre, rest, h2, ?_⟩
          simp [List.filter_cons, List.filter_append, receivedPromptEvent,
            operationStartedEvent, exceptEvent, filter_working_eq ws h3, h4]
        · rw [hx] at hprot; simp at hprot
      · obtain ⟨_, hd, _⟩ :=
          afterBreak_master p sid env.uuid env.bucket env.uploadRes env.signRes opb
        rcases h5 with ⟨htl, _⟩ | ⟨pe, _, _, _, _, _, hprot⟩
        · rcases hd with ⟨hev, m, hex⟩ | ⟨t, hev, hex, ht, _⟩
          <;> rw [hex] <;> dsimp only <;> rw [h1, htl, hev] <;>
            refine Or.inr ⟨pre, rest, h2, ?_⟩
          · simp [List.filter_cons, List.filter_append, receivedPromptEvent,
              operationStartedEvent, exceptEvent, filter_working_eq ws h3, h4]
          · simp [List.filter_cons, List.filter_append, receivedPromptEvent,
              operationStartedEvent, ht, filter_working_eq ws h3, h4]
        · rw [hx] at hprot; simp at hprot
    · rcases h5 with ⟨_, hne⟩ | ⟨pe, htl, hpe1, _, _, _, _⟩
      · exact absurd hx hne
      · rw [h1, htl]
        refine Or.inr ⟨pre, rest, h2, ?_⟩
        simp [List.filter_cons, List.filter_append, receivedPromptEvent,
          operationStartedEvent, hpe1, filter_working_eq ws h3, h4]
    · rcases h5 with ⟨htl, _⟩ | ⟨pe, _, _, _, _, _, hprot⟩
      · rw [h1, htl]
        refine Or.inr ⟨pre, rest, h2, ?_⟩
        simp [List.filter_cons, List.filter_append, receivedPromptEvent,
          operationStartedEvent, exceptEvent, filter_working_eq ws h3, h4]
      · rw [hx] at hprot; simp at hprot
    · rcases h5 with ⟨htl, _⟩ | ⟨pe, _, _, _, _, _, hprot⟩
      · rw [h1, htl]
        refine Or.inr ⟨pre, rest, h2, ?_⟩
        simp [List.filter_cons, receivedPromptEvent,
          operationStartedEvent, filter_working_eq ws h3, h4]
      · rw [hx] at hprot; simp at hprot

end VeoSpec

namespace VeoSpec

lemma streamRun_head (env : Env) (p sid : String) :
    ∃ tail, (streamRun env p sid).events = receivedPromptEvent p :: tail := by
  unfold streamRun
  rcases hstart : env.start with e | op0
  · exact ⟨_, rfl⟩
  · dsimp only
    rcases hx : (pollLoop sid env.steps op0 (startName op0)).2 with
      ⟨opb, nrep⟩ | _ | ⟨m, nrep⟩ | ⟨opf, nf⟩
    <;> dsimp only
    · rcases hnm : opb.name_attr with _ | nval
      · exact ⟨_, rfl⟩
      · rcases hex : (afterBreak p sid env.uuid env.bucket env.uploadRes env.signRes opb).exnOut
          with _ | m2
        <;> exact ⟨_, rfl⟩
    · exact ⟨_, rfl⟩
    · exact ⟨_, rfl⟩
    · exact ⟨_, rfl⟩

end VeoSpec

namespace VeoSpec

/-- C1: every fully consumed event sequence produced by `stream` has
exactly one terminal event (`is_task_complete = true`), it is the last
element, and this holds whatever exceptions the backend, the clock or
the storage raise (the environment makes every external call fallible;
the top-level handler converts any escape into a single Failed terminal
event). -/
theorem C1_exactly_one_terminal (env : Env) (p sid : String)
    (h : (streamRun env p sid).terminated = true) :
    ∃ pre t, (streamRun env p sid).events = pre ++ [t] ∧ t.is_task_complete = true ∧
      ∀ ev ∈ pre, ev.is_task_complete = false := by
  rcases streamRun_split env p sid with hs | ⟨hf, _⟩
  · exact hs
  · rw [hf] at h; exact absurd h Bool.false_ne_true

def c1WitnessEnv : Env :=
  { start := Except.error "boom", steps := [], uuid := "u", bucket := "b",
    uploadRes := Except.error "x", signRes := Except.error "y" }

/-- Witness for C1 on a concrete run in which the very first backend
call raises. -/
theorem C1_witness :
    (streamRun c1WitnessEnv "a cat" "t1").terminated = true ∧
    ∃ pre t, (streamRun c1WitnessEnv "a cat" "t1").events = pre ++ [t] ∧
      t.is_task_complete = true ∧ ∀ ev ∈ pre, ev.is_task_complete = false :=
  ⟨rfl, C1_exactly_one_terminal c1WitnessEnv "a cat" "t1" rfl⟩

/-- C2: the first event of every run is a non-terminal Working event at
percent 0; across consecutive non-terminal events the percent is
non-decreasing (given that the monotonic-clock readings are
non-negative and non-decreasing); and every terminal event carries
percent 100. -/
theorem C2_progress_invariants (env : Env) (p sid : String)
    (hchain : List.Chain' (· ≤ ·) (env.steps.map Prod.fst))
    (hnn : ∀ q ∈ env.steps.map Prod.fst, 0 ≤ q) :
    (∃ tail, (streamRun env p sid).events = receivedPromptEvent p :: tail) ∧
    (receivedPromptEvent p).is_task_complete = false ∧
    (receivedPromptEvent p).progress_percent = 0 ∧
    List.Chain' (· ≤ ·)
      (((streamRun env p sid).events.filter (fun ev => !ev.is_task_complete)).map
        (fun ev => ev.progress_percent)) ∧
    (∀ ev ∈ (streamRun env p sid).events, ev.is_task_complete = true →
      ev.progress_percent = 100) := by
  refine ⟨streamRun_head env p sid, rfl, rfl, ?_, streamRun_terminal_100 env p sid⟩
  rcases streamRun_nonterm_percents env p sid with hp | ⟨pre, rest, h2, hp⟩
  · rw [hp]; simp
  · rw [hp]
    rw [h2] at hchain
    have hcpre : List.Chain' (· ≤ ·) pre :=
      List.Chain'.sublist hchain (List.sublist_append_left pre rest)
    have h0pre : ∀ q ∈ pre, 0 ≤ q := by
      intro q hq
      exact hnn q (by rw [h2]; exact List.mem_append_left rest hq)
    exact List.chain'_cons.mpr ⟨by norm_num, chain_five_cp pre (chain_cp_map pre hcpre h0pre)⟩

def c2WitnessOp : PyOperation :=
  { done_attr := some true, name_attr := some "op9",
    error := some ⟨some "backend failure", "err"⟩, response := none,
    pyType := "Operation", pyRepr := "<op>" }

def c2WitnessEnv : Env :=
  { start := Except.ok c2WitnessOp,
    steps := [], uuid := "u", bucket := "b",
    uploadRes := Except.ok (), signRes := Except.ok "https://signed" }

/-- Witness for C2 on a concrete run that ends in a backend error. -/
theorem C2_witness :
    List.Chain' (· ≤ ·) (c2WitnessEnv.steps.map Prod.fst) ∧
    List.Chain' (· ≤ ·)
      (((streamRun c2WitnessEnv "a dog" "t2").events.filter
          (fun ev => !ev.is_task_complete)).map (fun ev => ev.progress_percent)) :=
  ⟨by simp [c2WitnessEnv], (C2_progress_invariants c2WitnessEnv "a dog" "t2"
    (by simp [c2WitnessEnv]) (by simp [c2WitnessEnv])).2.2.2.1⟩

/-- C7: the progress estimate of every non-terminal polling event is
`max 5 (min (floor (elapsed / total * 100)) 99)`, hence lies in
`[5, 99]`; and in every run the value 100 appears only on terminal
events. -/
theorem C7_progress_estimate (e : ℚ) (he : 0 ≤ e) :
    current_progress e =
      max 5 (min ⌊e / VEO_SIMULATED_TOTAL_GENERATION_TIME_SECONDS * 100⌋ 99) ∧
    5 ≤ current_progress e ∧ current_progress e ≤ 99 ∧
    ∀ (env : Env) (p sid : String), ∀ ev ∈ (streamRun env p sid).events,
      ev.is_task_complete = false → ev.progress_percent ≠ 100 := by
  refine ⟨?_, cp_ge_five e, cp_le_99 e, ?_⟩
  · unfold current_progress simulated_progress pyInt
    rw [if_pos (mul_nonneg (div_nonneg he
      (by norm_num [VEO_SIMULATED_TOTAL_GENERATION_TIME_SECONDS])) (by norm_num))]
  · intro env p sid ev hmem hnt
    have hin : ev.progress_percent ∈
        ((streamRun env p sid).events.filter (fun ev => !ev.is_task_complete)).map
          (fun ev => ev.progress_percent) := by
      exact List.mem_map_of_mem _ (List.mem_filter.mpr ⟨hmem, by rw [hnt]; rfl⟩)
    rcases streamRun_nonterm_percents env p sid with hp | ⟨pre, rest, _, hp⟩
    · rw [hp] at hin
      simp only [List.mem_singleton] at hin
      rw [hin]; norm_num
    · rw [hp] at hin
      simp only [List.mem_cons] at hin
      rcases hin with h0 | h5 | hcp
      · rw [h0]; norm_num
      · rw [h5]; norm_num
      · obtain ⟨a, _, ha⟩ := List.mem_map.mp hcp
        have := cp_le_99 a
        rw [ha] at this
        omega

/-- Witness for C7 at elapsed time 0. -/
theorem C7_witness :
    (0 : ℚ) ≤ 0 ∧
    (current_progress 0 =
      max 5 (min ⌊(0 : ℚ) / VEO_SIMULATED_TOTAL_GENERATION_TIME_SECONDS * 100⌋ 99) ∧
    5 ≤ current_progress 0 ∧ current_progress 0 ≤ 99 ∧
    ∀ (env : Env) (p sid : String), ∀ ev ∈ (streamRun env p sid).events,
      ev.is_task_complete = false → ev.progress_percent ≠ 100) :=
  ⟨le_refl 0, C7_progress_estimate 0 (le_refl 0)⟩

end VeoSpec

namespace VeoSpec

end VeoSpec

namespace VeoSpec

lemma append_sep_inj : ∀ (a b : List Char) (c : Char) (x y : List Char),
    c ∉ a → c ∉ b → a ++ c :: x = b ++ c :: y → a = b ∧ x = y := by
  intro a
  induction a with
  | nil =>
    intro b c x y _ hb h
    rcases b with _ | ⟨bh, bt⟩
    · rw [List.nil_append, List.nil_append] at h
      injection h with _ h2
      exact ⟨rfl, h2⟩
    · rw [List.nil_append, List.cons_append] at h
      injection h with h1 _
      exact absurd (by rw [h1]; exact List.mem_cons_self bh bt) hb
  | cons ah arest ih =>
    intro b c x y ha hb h
    rcases b with _ | ⟨bh, bt⟩
    · rw [List.cons_append, List.nil_append] at h
      injection h with h1 _
      exact absurd (by rw [← h1]; exact List.mem_cons_self ah arest) ha
    · rw [List.cons_append, List.cons_append] at h
      injection h with h1 h2
      obtain ⟨hab, hxy⟩ := ih bt c x y
        (fun hc => ha (List.mem_cons_of_mem ah hc))
        (fun hc => hb (List.mem_cons_of_mem bh hc)) h2
      exact ⟨by rw [h1, hab], hxy⟩

lemma gs_uri_ne_empty (b s : String) : ("gs://" ++ b ++ "/" ++ s) ≠ "" := by
  intro h
  have hlen := congrArg String.length h
  rw [String.length_append, String.length_append, String.length_append] at hlen
  have h5 : ("gs://" : String).length = 5 := rfl
  have h1 : ("/" : String).length = 1 := rfl
  have h0 : ("" : String).length = 0 := rfl
  rw [h5, h1, h0] at hlen
  omega

lemma gcsBlobName_data (sid u m : String) :
    (gcsBlobName sid u m).data =
      sid.data ++ '/' ::
        ("veo_video_".data ++ (sid.data ++ '_' :: (u.data ++ '.' :: (extFromMime m).data))) := by
  have h1 : ("/" : String).data = ['/'] := rfl
  have h2 : ("_" : String).data = ['_'] := rfl
  have h3 : ("." : String).data = ['.'] := rfl
  unfold gcsBlobName
  simp [String.data_append, h1, h2, h3, List.append_assoc]

/-- C6: the derived blob path is `{taskId}/veo_video_{taskId}_{uuid}.{ext}`:
it starts with the task id followed by a slash, ends with a dot and the
extension taken from the mime type (`mp4` for `video/mp4`), and for
slash-free task ids and dot-free random components the path determines
the task id, the random component and the extension, so two
finalizations with a different task id or a different random component
never produce the same path. -/
theorem C6_blob_path_shape (sid sid' u u' m m' : String)
    (hs : '/' ∉ sid.data) (hs' : '/' ∉ sid'.data)
    (hu : '.' ∉ u.data) (hu' : '.' ∉ u'.data) :
    (∃ r, gcsBlobName sid u m = sid ++ "/" ++ r) ∧
    (∃ l, gcsBlobName sid u m = l ++ ("." ++ extFromMime m)) ∧
    extFromMime "video/mp4" = "mp4" ∧
    (gcsBlobName sid u m = gcsBlobName sid' u' m' →
      sid = sid' ∧ u = u' ∧ extFromMime m = extFromMime m') := by
  refine ⟨⟨_, rfl⟩, ?_, by decide, ?_⟩
  · refine ⟨sid ++ "/" ++ ("veo_video_" ++ sid ++ "_" ++ u), ?_⟩
    apply String.ext
    simp [gcsBlobName, String.data_append, List.append_assoc]
  · intro h
    have hd := congrArg String.data h
    rw [gcsBlobName_data, gcsBlobName_data] at hd
    obtain ⟨hsid, hrest⟩ := append_sep_inj sid.data sid'.data '/' _ _ hs hs' hd
    have hrest2 := List.append_cancel_left hrest
    rw [hsid] at hrest2
    have hrest3 := List.append_cancel_left hrest2
    injection hrest3 with _ hrest4
    obtain ⟨huu, hee⟩ := append_sep_inj u.data u'.data '.' _ _ hu hu' hrest4
    exact ⟨String.ext hsid, String.ext huu, String.ext hee⟩

/-- Witness for C6 at concrete task ids, random components and mime
types. -/
theorem C6_witness :
    ('/' ∉ "t1".data ∧ '.' ∉ "abc123".data) ∧
    (∃ r, gcsBlobName "t1" "abc123" "video/mp4" = "t1" ++ "/" ++ r) ∧
    (∃ l, gcsBlobName "t1" "abc123" "video/mp4" =
      l ++ ("." ++ extFromMime "video/mp4")) ∧
    extFromMime "video/mp4" = "mp4" ∧
    (gcsBlobName "t1" "abc123" "video/mp4" = gcsBlobName "t2" "abc999" "video/mp4" →
      "t1" = "t2" ∧ "abc123" = "abc999" ∧
        extFromMime "video/mp4" = extFromMime "video/mp4") :=
  ⟨⟨by decide, by decide⟩,
    C6_blob_path_shape "t1" "t2" "abc123" "abc999" "video/mp4" "video/mp4"
      (by decide) (by decide) (by decide) (by decide)⟩

/-- C9: whatever the outcomes of opening the temporary file, writing the
bytes and uploading, the temporary local file does not exist when
`_upload_bytes_to_gcs` returns; on full success the call returns the
`gs://` locator, and otherwise the failure propagates as an exception. -/
theorem C9_temp_file_removed (openRes writeRes uploadRes : Except String Unit)
    (bucket blob : String) :
    (upload_bytes_to_gcs openRes writeRes uploadRes bucket blob).1 = false ∧
    ((upload_bytes_to_gcs openRes writeRes uploadRes bucket blob).2 =
        Except.ok ("gs://" ++ bucket ++ "/" ++ blob) ∨
      ∃ e, (upload_bytes_to_gcs openRes writeRes uploadRes bucket blob).2 =
        Except.error e) := by
  unfold upload_bytes_to_gcs
  rcases openRes with e | _
  · exact ⟨rfl, Or.inr ⟨e, rfl⟩⟩
  · rcases writeRes with e | _
    · exact ⟨rfl, Or.inr ⟨e, rfl⟩⟩
    · rcases uploadRes with e | _
      · exact ⟨rfl, Or.inr ⟨e, rfl⟩⟩
      · exact ⟨rfl, Or.inl rfl⟩

end VeoSpec

namespace VeoSpec

def c3BadOp : PyOperation :=
  { done_attr := none, name_attr := none, error := none, response := none,
    pyType := "str", pyRepr := "oops" }

def c3StartOp : PyOperation :=
  { done_attr := some false, name_attr := some "op3", error := none, response := none,
    pyType := "Operation", pyRepr := "<op>" }

def c3Env : Env :=
  { start := Except.ok c3StartOp,
    steps := [((0 : ℚ), Except.ok c3BadOp)], uuid := "u", bucket := "b",
    uploadRes := Except.ok (), signRes := Except.ok "https://signed" }

/-- C3 counterexample: on a poll result that lacks both the `done` and
the `name` attribute, the run does terminate immediately, but the
terminal dict the source yields at that point has no `is_error` key at
all (unlike every other failure event), so its `is_error` is not True
as the claim states. -/
theorem C3_counterexample :
    (streamRun c3Env "a cat" "t3").events.getLast? =
      some (pollProtocolEvent "t3" "op3" c3BadOp) ∧
    (pollProtocolEvent "t3" "op3" c3BadOp).is_task_complete = true ∧
    ¬ (pollProtocolEvent "t3" "op3" c3BadOp).is_error = some true ∧
    (pollProtocolEvent "t3" "op3" c3BadOp).is_error = none := by decide

/-- C3 (amended): if a poll call returns a value that omits both the
`done` and the identifier field, the event sequence terminates
immediately with a terminal event that carries `is_task_complete =
true` and percent 100 but no `is_error` field, and no further poll
calls occur (the remaining poll oracle entries are never consumed: the
result does not depend on `rest`). -/
theorem C3_amended_protocol_stop (sid nameRep : String) (op bad : PyOperation)
    (elapsed : ℚ) (rest : List (ℚ × Except String PyOperation))
    (hop : op.done_attr = some false)
    (hd : bad.done_attr = none) (hn : bad.name_attr = none) :
    pollLoop sid ((elapsed, Except.ok bad) :: rest) op nameRep =
      ([pollProtocolEvent sid nameRep bad], LoopExit.protocol) ∧
    (pollProtocolEvent sid nameRep bad).is_task_complete = true ∧
    (pollProtocolEvent sid nameRep bad).progress_percent = 100 ∧
    (pollProtocolEvent sid nameRep bad).is_error = none ∧
    ∀ (env : Env) (p : String), env.start = Except.ok op →
      env.steps = (elapsed, Except.ok bad) :: rest →
      (streamRun env p sid).events =
        [receivedPromptEvent p, operationStartedEvent (startName op),
          pollProtocolEvent sid (startName op) bad] ∧
      (streamRun env p sid).terminated = true := by
  have hdc : doneCheck sid op = DoneCheck.proceed := by
    unfold doneCheck; rw [hop]; rfl
  have hsh : (bad.done_attr.isSome && bad.name_attr.isSome) = false := by
    rw [hd, hn]; rfl
  have hmain : ∀ nr, pollLoop sid ((elapsed, Except.ok bad) :: rest) op nr =
      ([pollProtocolEvent sid nr bad], LoopExit.protocol) := by
    intro nr
    simp only [pollLoop, hdc]
    simp [hsh]
  refine ⟨hmain nameRep, rfl, rfl, rfl, ?_⟩
  intro env p hstart hsteps
  unfold streamRun
  rw [hstart]; dsimp only
  rw [hsteps, hmain (startName op)]
  exact ⟨rfl, rfl⟩

/-- Witness for the amended C3 on a concrete malformed poll result. -/
theorem C3_witness :
    pollLoop "t3" [((0 : ℚ), Except.ok c3BadOp)] c3StartOp "op3" =
      ([pollProtocolEvent "t3" "op3" c3BadOp], LoopExit.protocol) ∧
    (streamRun c3Env "a cat" "t3").events =
      [receivedPromptEvent "a cat", operationStartedEvent (startName c3StartOp),
        pollProtocolEvent "t3" (startName c3StartOp) c3BadOp] :=
  have h := C3_amended_protocol_stop "t3" "op3" c3StartOp c3BadOp 0 [] rfl rfl rfl
  ⟨h.1, (h.2.2.2.2 c3Env "a cat" rfl rfl).1⟩

/-- C10: a polled value that has a `done` attribute but no `name`
attribute also fails the shape gate and terminates the stream with the
protocol-violation event, with no further polls; whereas on the initial
start response a missing `name` is cosmetic: the reporting name falls
back to "N/A" and the stream proceeds into the polling phase. -/
theorem C10_done_without_name (sid nameRep : String) (op bad : PyOperation)
    (d : Bool) (elapsed : ℚ) (rest : List (ℚ × Except String PyOperation))
    (hop : op.done_attr = some false)
    (hd : bad.done_attr = some d) (hn : bad.name_attr = none) :
    pollLoop sid ((elapsed, Except.ok bad) :: rest) op nameRep =
      ([pollProtocolEvent sid nameRep bad], LoopExit.protocol) ∧
    ∀ (op0 : PyOperation) (env : Env) (p : String),
      op0.name_attr = none → env.start = Except.ok op0 →
      startName op0 = "N/A" ∧
      ∃ tail, (streamRun env p sid).events =
        receivedPromptEvent p :: operationStartedEvent "N/A" :: tail := by
  constructor
  · have hdc : doneCheck sid op = DoneCheck.proceed := by
      unfold doneCheck; rw [hop]; rfl
    have hsh : (bad.done_attr.isSome && bad.name_attr.isSome) = false := by
      rw [hd, hn]; rfl
    simp only [pollLoop, hdc]
    simp [hsh]
  · intro op0 env p hn0 hstart
    have hsn : startName op0 = "N/A" := by
      unfold startName; rw [hn0]; rfl
    refine ⟨hsn, ?_⟩
    unfold streamRun
    rw [hstart]; dsimp only
    rw [hsn]
    rcases hx : (pollLoop sid env.steps op0 "N/A").2 with
      ⟨opb, nrep⟩ | _ | ⟨m, nrep⟩ | ⟨opf, nf⟩
    <;> dsimp only
    · rcases hnm : opb.name_attr with _ | nval
      · exact ⟨_, rfl⟩
      · rcases hex : (afterBreak p sid env.uuid env.bucket env.uploadRes env.signRes opb).exnOut
          with _ | m2
        <;> exact ⟨_, rfl⟩
    · exact ⟨_, rfl⟩
    · exact ⟨_, rfl⟩
    · exact ⟨_, rfl⟩

def c10BadOp : PyOperation :=
  { done_attr := some false, name_attr := none, error := none, response := none,
    pyType := "GenerateVideosOperation", pyRepr := "<op-no-name>" }

def c10StartOp : PyOperation :=
  { done_attr := some true, name_attr := none,
    error := some ⟨some "backend down", "err"⟩, response := none,
    pyType := "Operation", pyRepr := "<op>" }

def c10Env : Env :=
  { start := Except.ok c10StartOp,
    steps := [], uuid := "u", bucket := "b",
    uploadRes := Except.ok (), signRes := Except.ok "https://signed" }

/-- Witness for C10 on concrete operations. -/
theorem C10_witness :
    pollLoop "t10" [((0 : ℚ), Except.ok c10BadOp)] c3StartOp "op3" =
      ([pollProtocolEvent "t10" "op3" c10BadOp], LoopExit.protocol) ∧
    startName c10StartOp = "N/A" ∧
    ∃ tail, (streamRun c10Env "a pig" "t10").events =
      receivedPromptEvent "a pig" :: operationStartedEvent "N/A" :: tail :=
  have h := C10_done_without_name "t10" "op3" c3StartOp c10BadOp false 0 [] rfl rfl rfl
  ⟨h.1, h.2 c10StartOp c10Env "a pig" rfl rfl⟩

/-- C4: when the upload succeeds but generating the signed URL raises,
`_generate_signed_url` falls back to the raw `gs://` locator and the
task still ends with a Completed terminal event (no `is_error`) whose
`file_part_data.uri` is exactly `gs://{bucket}/{blob}`; the signing
failure never becomes a task failure.  The `hrep` hypothesis states
that stripping the `gs://{bucket}/` prefix recovers the blob name, as
it does for any non-pathological bucket and blob. -/
theorem C4_signing_failure_completed (p sid u b e : String) (op : PyOperation)
    (gv : GeneratedVideo) (gvrest : List GeneratedVideo) (vo : VideoObj)
    (herr : op.error = none) (hv : respVideos op = gv :: gvrest)
    (hvo : gv.video = some vo) (hb : ¬ vo.video_bytes = [])
    (hrep : pyReplace ("gs://" ++ b ++ "/" ++ gcsBlobName sid u (mimeOf vo))
        ("gs://" ++ b ++ "/") "" = gcsBlobName sid u (mimeOf vo)) :
    generate_signed_url (Except.error e) (gcsBlobName sid u (mimeOf vo)) b
        SIGNED_URL_EXPIRATION_SECONDS =
      "gs://" ++ b ++ "/" ++ gcsBlobName sid u (mimeOf vo) ∧
    (afterBreak p sid u b (Except.ok ()) (Except.error e) op).exnOut = none ∧
    (afterBreak p sid u b (Except.ok ()) (Except.error e) op).uploads = 1 ∧
    ∃ t, (afterBreak p sid u b (Except.ok ()) (Except.error e) op).events = [t] ∧
      t.is_task_complete = true ∧ t.is_error = none ∧
      t.file_part_data =
        some ⟨"gs://" ++ b ++ "/" ++ gcsBlobName sid u (mimeOf vo), mimeOf vo⟩ := by
  refine ⟨rfl, ?_⟩
  unfold afterBreak
  rw [herr, hv]
  dsimp only
  rw [hvo]
  dsimp only
  rw [if_neg hb]
  rw [if_pos (gs_uri_ne_empty b (gcsBlobName sid u (mimeOf vo)))]
  rw [hrep]
  exact ⟨rfl, rfl, _, rfl, rfl, rfl, rfl⟩

def c4Resp : VeoResponse :=
  { generated_videos := some [⟨some ⟨some "video/mp4", [7, 7]⟩⟩],
    rai_media_filtered_count := none, rai_media_filtered_reasons := none }

def c4Op : PyOperation :=
  { done_attr := some true, name_attr := some "op4", error := none,
    response := some c4Resp,
    pyType := "Operation", pyRepr := "<op>" }

/-- Witness for C4 on a concrete successful upload with failing signing. -/
theorem C4_witness :
    pyReplace ("gs://" ++ "bkt" ++ "/" ++ gcsBlobName "t4" "u4" (mimeOf ⟨some "video/mp4", [7, 7]⟩))
        ("gs://" ++ "bkt" ++ "/") "" = gcsBlobName "t4" "u4" (mimeOf ⟨some "video/mp4", [7, 7]⟩) ∧
    ∃ t, (afterBreak "a cow" "t4" "u4" "bkt" (Except.ok ())
        (Except.error "no perms") c4Op).events = [t] ∧
      t.is_task_complete = true ∧ t.is_error = none ∧
      t.file_part_data = some ⟨"gs://" ++ "bkt" ++ "/" ++
        gcsBlobName "t4" "u4" (mimeOf ⟨some "video/mp4", [7, 7]⟩),
        mimeOf ⟨some "video/mp4", [7, 7]⟩⟩ :=
  ⟨by decide, (C4_signing_failure_completed "a cow" "t4" "u4" "bkt" "no perms" c4Op
    ⟨some ⟨some "video/mp4", [7, 7]⟩⟩ [] ⟨some "video/mp4", [7, 7]⟩
    rfl rfl rfl (by decide) (by decide)).2.2.2⟩

/-- C8: when the operation completes without error but the result holds
no payload, the terminal event is Failed (`is_error = true`, no file
part), never Completed: the safety-filter event with the joined reasons
when the filtered count is positive, and the generic no-payload message
otherwise. -/
def c8CexResp : VeoResponse :=
  { generated_videos := none,
    rai_media_filtered_count := some none,
    rai_media_filtered_reasons := some none }

def c8CexOp : PyOperation :=
  { done_attr := some true, name_attr := some "op8", error := none,
    response := some c8CexResp,
    pyType := "Operation", pyRepr := "<op>" }

def c8CexEnv : Env :=
  { start := Except.ok c8CexOp,
    steps := [], uuid := "u", bucket := "b",
    uploadRes := Except.ok (), signRes := Except.ok "https://signed" }

set_option maxRecDepth 8192 in
/-- C8 counterexample: a done, error-free operation whose response has
no payload and whose `rai_media_filtered_count` field is present with
value None (as a pydantic SDK response with no filtering reports it).
The claim demands the generic no-payload terminal event here; the
source instead raises TypeError at the `count > 0` comparison
(agent.py:335), and the terminal event is the top-level handler's
except event, not the generic-message event.  It is still Failed
(`is_error = true`) and the finalizer never ran. -/
theorem C8_counterexample :
    (streamRun c8CexEnv "a bird" "t8").events.getLast? =
      some (exceptEvent "t8" countTypeErrorMsg true "op8") ∧
    exceptEvent "t8" countTypeErrorMsg true "op8" ≠ genericEmptyEvent ∧
    (exceptEvent "t8" countTypeErrorMsg true "op8").content ≠ genericEmptyEvent.content ∧
    (exceptEvent "t8" countTypeErrorMsg true "op8").is_error = some true ∧
    (streamRun c8CexEnv "a bird" "t8").uploads = 0 := by decide

/-- C8 (amended): when the operation completes without error but the
result holds no payload, the finalizer is never invoked and every event
this region yields is Failed (`is_error = true`, no file part), never
Completed; the branch taken is: the generic no-payload event when the
response is None, the count attribute is missing, or the count is a
non-positive number; the safety-filter event with the joined reasons
(or the getattr default) when the count is a positive number and the
reasons field is not present-as-None; and when the count — or, with a
positive count, the reasons field — is present but None, the TypeError
raised by the `> 0` comparison or the join escapes to the top-level
handler, whose event is likewise Failed and not Completed. -/
theorem C8_empty_result_branches (p sid u b : String) (up : Except String Unit)
    (sg : Except String String) (op : PyOperation)
    (herr : op.error = none) (hempty : respVideos op = []) :
    (afterBreak p sid u b up sg op).uploads = 0 ∧
    (∀ t ∈ (afterBreak p sid u b up sg op).events,
      t.is_task_complete = true ∧ t.is_error = some true ∧ t.file_part_data = none) ∧
    (op.response = none → afterBreak p sid u b up sg op = ⟨[genericEmptyEvent], none, 0⟩) ∧
    (∀ r, op.response = some r →
      (r.rai_media_filtered_count = none →
        afterBreak p sid u b up sg op = ⟨[genericEmptyEvent], none, 0⟩) ∧
      (r.rai_media_filtered_count = some none →
        afterBreak p sid u b up sg op = ⟨[], some countTypeErrorMsg, 0⟩) ∧
      (∀ c, r.rai_media_filtered_count = some (some c) → ¬ 0 < c →
        afterBreak p sid u b up sg op = ⟨[genericEmptyEvent], none, 0⟩) ∧
      (∀ c, r.rai_media_filtered_count = some (some c) → 0 < c →
        (r.rai_media_filtered_reasons = none →
          afterBreak p sid u b up sg op =
            ⟨[raiEvent (joinComma ["Unknown safety filter."])], none, 0⟩) ∧
        (r.rai_media_filtered_reasons = some none →
          afterBreak p sid u b up sg op = ⟨[], some joinTypeErrorMsg, 0⟩) ∧
        (∀ l, r.rai_media_filtered_reasons = some (some l) →
          afterBreak p sid u b up sg op = ⟨[raiEvent (joinComma l)], none, 0⟩))) ∧
    (∀ m kicked nr, (exceptEvent sid m kicked nr).is_task_complete = true ∧
      (exceptEvent sid m kicked nr).is_error = some true ∧
      (exceptEvent sid m kicked nr).file_part_data = none) := by
  have hab : afterBreak p sid u b up sg op = emptyResultEvents op := by
    unfold afterBreak; rw [herr, hempty]
  rw [hab]
  refine ⟨?_, ?_, ?_, ?_, fun m kicked nr => ⟨rfl, rfl, rfl⟩⟩
  · rcases emptyResultEvents_cases op with heq | heq | heq | ⟨txt, heq⟩ <;> rw [heq]
  · rcases emptyResultEvents_cases op with heq | heq | heq | ⟨txt, heq⟩ <;> rw [heq]
    · intro t ht
      simp only [List.mem_singleton] at ht
      rw [ht]; exact ⟨rfl, rfl, rfl⟩
    · intro t ht; simp at ht
    · intro t ht; simp at ht
    · intro t ht
      simp only [List.mem_singleton] at ht
      rw [ht]; exact ⟨rfl, rfl, rfl⟩
  · intro hr
    unfold emptyResultEvents
    rw [hr]
  · intro r hr
    refine ⟨?_, ?_, ?_, ?_⟩
    · intro hc
      unfold emptyResultEvents
      rw [hr]; dsimp only
      rw [hc]
    · intro hc
      unfold emptyResultEvents
      rw [hr]; dsimp only
      rw [hc]
    · intro c hc h0
      unfold emptyResultEvents
      rw [hr]; dsimp only
      rw [hc]; dsimp only
      rw [if_neg h0]
    · intro c hc h0
      refine ⟨?_, ?_, ?_⟩
      · intro hrs
        unfold emptyResultEvents
        rw [hr]; dsimp only
        rw [hc]; dsimp only
        rw [if_pos h0, hrs]
      · intro hrs
        unfold emptyResultEvents
        rw [hr]; dsimp only
        rw [hc]; dsimp only
        rw [if_pos h0, hrs]
      · intro l hrs
        unfold emptyResultEvents
        rw [hr]; dsimp only
        rw [hc]; dsimp only
        rw [if_pos h0, hrs]

def c8Resp : VeoResponse :=
  { generated_videos := none,
    rai_media_filtered_count := some (some 2),
    rai_media_filtered_reasons := some (some ["violence", "gore"]) }

def c8Op : PyOperation :=
  { done_attr := some true, name_attr := some "op8", error := none,
    response := some c8Resp,
    pyType := "Operation", pyRepr := "<op>" }

/-- Witness for the amended C8 on a concrete safety-filtered empty
result with a positive count and a present reasons list. -/
theorem C8_witness :
    (afterBreak "a bird" "t8" "u8" "b8" (Except.ok ()) (Except.ok "s") c8Op).uploads = 0 ∧
    afterBreak "a bird" "t8" "u8" "b8" (Except.ok ()) (Except.ok "s") c8Op =
      ⟨[raiEvent (joinComma ["violence", "gore"])], none, 0⟩ := by
  have h := C8_empty_result_branches "a bird" "t8" "u8" "b8"
    (Except.ok ()) (Except.ok "s") c8Op rfl rfl
  exact ⟨h.1, (((h.2.2.2.1 c8Resp rfl).2.2.2 2 rfl (by norm_num)).2.2
    ["violence", "gore"] rfl)⟩

end VeoSpec
